import Mathlib

/-
  Verification development for the Inventory repository.

  Shallow embedding of the client-side core of the application (the
  inventory reducer from src/react/src/context (concatenated into
  src/react/src/types/auth.types.ts in this snapshot), the session
  store and AuthService from src/unnamed/part_000, and the ApiClient
  response interceptor from src/react/src/services/api.ts), together
  with theorems checking the frozen claims about the specification.

  Conventions: TypeScript `string | null` and optional fields become
  `Option String`; TS `number` fields become `Int` (no arithmetic on
  them occurs in the modelled code); JS truthiness is modelled
  explicitly where the source tests a value with `if (x)` or `!x`.
-/

namespace Inventory

/-! ## Data model (src/react/src/types/inventory.types.ts) -/

structure Category where
  id : String
  name : String
  description : Option String
  is_active : Option Bool
deriving DecidableEq, Repr

structure Warehouse where
  id : String
  name : String
  code : Option String
  address : Option String
  phone : Option String
  is_active : Option Bool
deriving DecidableEq, Repr

structure InventoryItem where
  id : String
  name : String
  category_id : String
  category : Option Category
  current_stock : Int
  min_stock : Int
  max_stock : Option Int
  buy_price : Int
  sell_price : Int
  unit : String
  sku : String
  description : Option String
  warehouse_id : Option String
  warehouse : Option Warehouse
  created_by : String
  created_at : String
  updated_at : String
  is_active : Bool
deriving DecidableEq, Repr

structure InventoryFilters where
  category_id : Option String
  min_stock : Option Int
  max_stock : Option Int
  search : Option String
  warehouse_id : Option String
  is_active : Option Bool
deriving DecidableEq, Repr

structure Pagination where
  page : Int
  limit : Int
  total : Int
  totalPages : Int
deriving DecidableEq, Repr

structure InventoryState where
  items : List InventoryItem
  categories : List Category
  warehouses : List Warehouse
  lowStockItems : List InventoryItem
  inventoryValue : Int
  isLoading : Bool
  error : Option String
  filters : InventoryFilters
  pagination : Pagination
deriving DecidableEq, Repr

/-- A `Partial<InventoryFilters>` payload: each field of the patch is
`some v` when the key is present in the object literal (with value `v`,
itself optional because the underlying field is optional) and `none`
when the key is absent. -/
structure FiltersPatch where
  category_id : Option (Option String)
  min_stock : Option (Option Int)
  max_stock : Option (Option Int)
  search : Option (Option String)
  warehouse_id : Option (Option String)
  is_active : Option (Option Bool)
deriving DecidableEq, Repr

/-- A `Partial<Pagination>` payload: `some v` when the key is present. -/
structure PaginationPatch where
  page : Option Int
  limit : Option Int
  total : Option Int
  totalPages : Option Int
deriving DecidableEq, Repr

/-- JS object spread `\x7b...state.filters, ...action.payload\x7d`:
every key present in the payload overrides, every other key keeps the
value from the existing filters. -/
def mergeFilters (f : InventoryFilters) (p : FiltersPatch) : InventoryFilters where
  category_id := p.category_id.getD f.category_id
  min_stock := p.min_stock.getD f.min_stock
  max_stock := p.max_stock.getD f.max_stock
  search := p.search.getD f.search
  warehouse_id := p.warehouse_id.getD f.warehouse_id
  is_active := p.is_active.getD f.is_active

/-- JS object spread `\x7b...state.pagination, ...action.payload\x7d`. -/
def mergePagination (g : Pagination) (p : PaginationPatch) : Pagination where
  page := p.page.getD g.page
  limit := p.limit.getD g.limit
  total := p.total.getD g.total
  totalPages := p.totalPages.getD g.totalPages

/-! ## Reducer (inventoryReducer in the context source) -/

inductive InventoryAction where
  | FETCH_START
  | FETCH_SUCCESS (items : List InventoryItem) (pagination : Pagination)
  | FETCH_FAILURE (message : String)
  | ADD_ITEM (item : InventoryItem)
  | UPDATE_ITEM (item : InventoryItem)
  | DELETE_ITEM (id : String)
  | SET_CATEGORIES (categories : List Category)
  | SET_WAREHOUSES (warehouses : List Warehouse)
  | SET_LOW_STOCK_ITEMS (items : List InventoryItem)
  | SET_INVENTORY_VALUE (value : Int)
  | SET_FILTERS (payload : FiltersPatch)
  | SET_PAGINATION (payload : PaginationPatch)
  | CLEAR_ERROR
  | RESET_LOADING
deriving DecidableEq, Repr

/-- The reducer, translated case by case from the `switch` statement. -/
def inventoryReducer (state : InventoryState) (action : InventoryAction) :
    InventoryState :=
  match action with
  | .FETCH_START => { state with isLoading := true, error := none }
  | .FETCH_SUCCESS items pagination =>
      { state with isLoading := false, items := items, pagination := pagination,
                   error := none }
  | .FETCH_FAILURE message => { state with isLoading := false, error := some message }
  | .ADD_ITEM item =>
      { state with items := item :: state.items, isLoading := false, error := none }
  | .UPDATE_ITEM item =>
      { state with
          items := state.items.map (fun x => if x.id == item.id then item else x),
          isLoading := false, error := none }
  | .DELETE_ITEM id =>
      { state with items := state.items.filter (fun x => x.id != id),
                   isLoading := false, error := none }
  | .SET_CATEGORIES categories => { state with categories := categories }
  | .SET_WAREHOUSES warehouses => { state with warehouses := warehouses }
  | .SET_LOW_STOCK_ITEMS items => { state with lowStockItems := items }
  | .SET_INVENTORY_VALUE value => { state with inventoryValue := value }
  | .SET_FILTERS payload =>
      { state with filters := mergeFilters state.filters payload }
  | .SET_PAGINATION payload =>
      { state with pagination := mergePagination state.pagination payload }
  | .CLEAR_ERROR => { state with error := none }
  | .RESET_LOADING => { state with isLoading := false }

/-- The initial state of the InventoryProvider. -/
def initialState : InventoryState where
  items := []
  categories := []
  warehouses := []
  lowStockItems := []
  inventoryValue := 0
  isLoading := false
  error := none
  filters :=
    { category_id := some "", min_stock := some 0, max_stock := none,
      search := some "", warehouse_id := none, is_active := none }
  pagination := { page := 1, limit := 10, total := 0, totalPages := 0 }

/-- Folding a sequence of dispatched actions through the reducer. -/
def runReducer (actions : List InventoryAction) (s : InventoryState) :
    InventoryState :=
  actions.foldl inventoryReducer s

/-! ## JS values, truthiness, JSON.parse and JSON.stringify

The session store keeps the cached user as a raw string blob and the
AuthService exchanges untyped response bodies, so we model JS values
explicitly. JSON numbers are kept as their lexemes (no floating-point
semantics is needed by any modelled code path). -/

inductive JsValue where
  | null
  | bool (b : Bool)
  | num (lexeme : String)
  | str (s : String)
  | arr (elements : List JsValue)
  | obj (fields : List (String × JsValue))
deriving Repr

/-- A numeric lexeme denotes zero when its mantissa has no nonzero
digit (the exponent cannot change that). -/
def numLexemeIsZero (l : String) : Bool :=
  let noSign := if l.startsWith "-" then l.drop 1 else l
  let mantissa := noSign.takeWhile (fun c => c != 'e' && c != 'E')
  mantissa.toList.all (fun c => c == '0' || c == '.')

/-- JS truthiness of a value: null, false, zero and the empty string
are falsy; objects and arrays are always truthy. -/
def jsTruthy : JsValue → Bool
  | .null => false
  | .bool b => b
  | .num l => !(numLexemeIsZero l)
  | .str s => s != ""
  | .arr _ => true
  | .obj _ => true

/-- JS truthiness of a `string | null` slot (as read from storage):
`null` and the empty string are falsy. -/
def jsTruthyStr : Option String → Bool
  | none => false
  | some s => s != ""

/-- Escaping used by JSON.stringify for string contents. -/
def escapeString (s : String) : String :=
  s.toList.foldl (fun acc c =>
    if c = '"' then acc ++ "\\\""
    else if c = '\\' then acc ++ "\\\\"
    else if c = '\n' then acc ++ "\\n"
    else if c = '\r' then acc ++ "\\r"
    else if c = '\t' then acc ++ "\\t"
    else acc.push c) ""

/-- JSON.stringify on the modelled values. -/
def stringify : JsValue → String
  | .null => "null"
  | .bool true => "true"
  | .bool false => "false"
  | .num l => l
  | .str s => "\"" ++ escapeString s ++ "\""
  | .arr xs =>
      "[" ++ String.intercalate "," (xs.attach.map (fun x => stringify x.1)) ++ "]"
  | .obj fs =>
      "\x7b" ++ String.intercalate ","
        (fs.attach.map (fun f =>
          "\"" ++ escapeString f.1.1 ++ "\":" ++ stringify f.1.2)) ++ "\x7d"
termination_by v => sizeOf v
decreasing_by
  · simp_wf
    have h := List.sizeOf_lt_of_mem x.2
    omega
  · simp_wf
    obtain ⟨⟨a, b⟩, hmem⟩ := f
    have h := List.sizeOf_lt_of_mem hmem
    simp at h ⊢
    omega

/-! JSON.parse, as a fueled recursive-descent parser over the character
list; the fuel is sized from the input so that it never runs out on
well-formed input. -/

def isWs (c : Char) : Bool :=
  c == ' ' || c == '\n' || c == '\r' || c == '\t'

def skipWs (cs : List Char) : List Char := cs.dropWhile isWs

def hexVal (c : Char) : Option Nat :=
  if '0'.toNat ≤ c.toNat ∧ c.toNat ≤ '9'.toNat then some (c.toNat - '0'.toNat)
  else if 'a'.toNat ≤ c.toNat ∧ c.toNat ≤ 'f'.toNat then some (c.toNat - 'a'.toNat + 10)
  else if 'A'.toNat ≤ c.toNat ∧ c.toNat ≤ 'F'.toNat then some (c.toNat - 'A'.toNat + 10)
  else none

/-- Match a literal keyword, returning the remaining characters. -/
def dropLit : List Char → List Char → Option (List Char)
  | [], cs => some cs
  | _ :: _, [] => none
  | a :: ps, b :: cs => if a = b then dropLit ps cs else none

/-- Body of a JSON string, after the opening quote. -/
def parseStringBody (fuel : Nat) (cs : List Char) (acc : String) :
    Except String (String × List Char) :=
  match fuel with
  | 0 => .error "JSON depth exceeded"
  | Nat.succ f =>
    match cs with
    | [] => .error "Unterminated string in JSON"
    | '"' :: rest => .ok (acc, rest)
    | '\\' :: rest =>
      match rest with
      | [] => .error "Unterminated string in JSON"
      | c :: rest2 =>
        if c = '"' then parseStringBody f rest2 (acc.push '"')
        else if c = '\\' then parseStringBody f rest2 (acc.push '\\')
        else if c = '/' then parseStringBody f rest2 (acc.push '/')
        else if c = 'b' then parseStringBody f rest2 (acc.push (Char.ofNat 8))
        else if c = 'f' then parseStringBody f rest2 (acc.push (Char.ofNat 12))
        else if c = 'n' then parseStringBody f rest2 (acc.push '\n')
        else if c = 'r' then parseStringBody f rest2 (acc.push '\r')
        else if c = 't' then parseStringBody f rest2 (acc.push '\t')
        else if c = 'u' then
          match rest2 with
          | h1 :: h2 :: h3 :: h4 :: rest3 =>
            match hexVal h1, hexVal h2, hexVal h3, hexVal h4 with
            | some a, some b, some c2, some d =>
                parseStringBody f rest3 (acc.push (Char.ofNat (((a * 16 + b) * 16 + c2) * 16 + d)))
            | _, _, _, _ => .error "Bad Unicode escape in JSON"
          | _ => .error "Bad Unicode escape in JSON"
        else .error "Bad escape in JSON"
    | c :: rest => parseStringBody f rest (acc.push c)

def takeDigits (cs : List Char) : String × List Char :=
  (String.mk (cs.takeWhile (fun c => c.isDigit)),
   cs.dropWhile (fun c => c.isDigit))

/-- Optional exponent part of a JSON number. -/
def lexExp (mant : String) (cs : List Char) :
    Except String (String × List Char) :=
  match cs with
  | c :: rest =>
    if c = 'e' ∨ c = 'E' then
      let (sgn, rest2) :=
        match rest with
        | '+' :: r => ("+", r)
        | '-' :: r => ("-", r)
        | _ => ("", rest)
      let (ds, rest3) := takeDigits rest2
      if ds = "" then .error "Bad number in JSON"
      else .ok (mant ++ String.singleton c ++ sgn ++ ds, rest3)
    else .ok (mant, cs)
  | [] => .ok (mant, cs)

/-- Optional fraction part of a JSON number, then the exponent. -/
def lexFrac (intPart : String) (cs : List Char) :
    Except String (String × List Char) :=
  match cs with
  | '.' :: rest =>
      let (ds, rest2) := takeDigits rest
      if ds = "" then .error "Bad number in JSON"
      else lexExp (intPart ++ "." ++ ds) rest2
  | _ => lexExp intPart cs

/-- A JSON number lexeme: optional minus, integer part without leading
zeros, optional fraction, optional exponent. -/
def lexNumber (cs : List Char) : Except String (String × List Char) :=
  let (sign, cs1) := match cs with | '-' :: r => ("-", r) | _ => ("", cs)
  match cs1 with
  | '0' :: rest => do
      let (lx, rest2) ← lexFrac "0" rest
      pure (sign ++ lx, rest2)
  | c :: _ =>
      if c.isDigit then do
        let (ds, rest2) := takeDigits cs1
        let (lx, rest3) ← lexFrac ds rest2
        pure (sign ++ lx, rest3)
      else .error "Unexpected token in JSON"
  | [] => .error "Unexpected end of JSON input"

mutual

/-- One JSON value, leading whitespace allowed. -/
def parseValue : Nat → List Char → Except String (JsValue × List Char)
  | 0, _ => .error "JSON depth exceeded"
  | Nat.succ f, cs =>
    match skipWs cs with
    | [] => .error "Unexpected end of JSON input"
    | c :: rest =>
      if c = 'n' then
        match dropLit ['u', 'l', 'l'] rest with
        | some rest2 => .ok (.null, rest2)
        | none => .error "Unexpected token in JSON"
      else if c = 't' then
        match dropLit ['r', 'u', 'e'] rest with
        | some rest2 => .ok (.bool true, rest2)
        | none => .error "Unexpected token in JSON"
      else if c = 'f' then
        match dropLit ['a', 'l', 's', 'e'] rest with
        | some rest2 => .ok (.bool false, rest2)
        | none => .error "Unexpected token in JSON"
      else if c = '"' then do
        let (s, rest2) ← parseStringBody f rest ""
        pure (.str s, rest2)
      else if c = '-' ∨ c.isDigit then do
        let (lx, rest2) ← lexNumber (c :: rest)
        pure (.num lx, rest2)
      else if c = '[' then
        match skipWs rest with
        | ']' :: rest2 => .ok (.arr [], rest2)
        | _ => parseElems f rest []
      else if c = '\x7b' then
        match skipWs rest with
        | '\x7d' :: rest2 => .ok (.obj [], rest2)
        | _ => parseFields f rest []
      else .error "Unexpected token in JSON"

/-- Elements of a JSON array, after the opening bracket or a comma. -/
def parseElems : Nat → List Char → List JsValue →
    Except String (JsValue × List Char)
  | 0, _, _ => .error "JSON depth exceeded"
  | Nat.succ f, cs, acc => do
    let (v, rest) ← parseValue f cs
    match skipWs rest with
    | ',' :: rest2 => parseElems f rest2 (acc ++ [v])
    | ']' :: rest2 => .ok (.arr (acc ++ [v]), rest2)
    | _ => .error "Expected comma or closing bracket in JSON"

/-- Fields of a JSON object, after the opening brace or a comma. -/
def parseFields : Nat → List Char → List (String × JsValue) →
    Except String (JsValue × List Char)
  | 0, _, _ => .error "JSON depth exceeded"
  | Nat.succ f, cs, acc =>
    match skipWs cs with
    | '"' :: rest => do
      let (k, rest2) ← parseStringBody f rest ""
      match skipWs rest2 with
      | ':' :: rest3 => do
        let (v, rest4) ← parseValue f rest3
        match skipWs rest4 with
        | ',' :: rest5 => parseFields f rest5 (acc ++ [(k, v)])
        | '\x7d' :: rest5 => .ok (.obj (acc ++ [(k, v)]), rest5)
        | _ => .error "Expected comma or closing brace in JSON"
      | _ => .error "Expected colon in JSON"
    | _ => .error "Expected string key in JSON"

end

/-- JSON.parse: parse one value and require only whitespace after it. -/
def jsonParse (s : String) : Except String JsValue :=
  match parseValue (2 * s.length + 2) s.toList with
  | .error e => .error e
  | .ok (v, rest) =>
      if skipWs rest = [] then .ok v
      else .error "Unexpected non-whitespace character after JSON"

/-- Whether an Except result is a success. -/
def exceptOk {ε α : Type} : Except ε α → Bool
  | .ok _ => true
  | .error _ => false

/-! ## Session store (the localStorage slice used by AuthService)

The store keys are inventory_token, refresh_token and inventory_user
(src/unnamed/part_000); each holds `string | null`. -/

structure Store where
  inventory_token : Option String
  refresh_token : Option String
  inventory_user : Option String
deriving DecidableEq, Repr

def emptyStore : Store := ⟨none, none, none⟩

def getToken (s : Store) : Option String := s.inventory_token

def setToken (s : Store) (t : String) : Store :=
  { s with inventory_token := some t }

/-- setUser stores JSON.stringify of the user under the user key. -/
def setUserVal (s : Store) (u : JsValue) : Store :=
  { s with inventory_user := some (stringify u) }

/-- clearAuth removes the token, the refresh token and the cached user. -/
def clearAuth (s : Store) : Store :=
  { s with inventory_token := none, refresh_token := none,
           inventory_user := none }

/-- isAuthenticated is the double negation of getToken. -/
def isAuthenticated (s : Store) : Bool := jsTruthyStr (getToken s)

/-- getUser: a falsy cached blob (absent key or empty string) yields
null; otherwise JSON.parse is applied to the blob and its exception,
when any, propagates. -/
def getUser (s : Store) : Except String JsValue :=
  match s.inventory_user with
  | none => .ok .null
  | some blob => if blob = "" then .ok .null else jsonParse blob

/-! ## AuthService operations

The network is modelled by passing in the outcome each HTTP call would
have. Each operation returns the store it leaves behind, its result,
and (where relevant) the number of network calls it made and the
navigations it forced. -/

/-- getCurrentUser: returns null at once when no truthy token is
cached, otherwise fetches the profile; a truthy profile is cached and
returned, a falsy successful body is returned as null without caching,
and a failed fetch clears the whole session and returns null. -/
def getCurrentUser (s : Store) (me : Except String JsValue) :
    Store × Option JsValue × Nat :=
  match jsTruthyStr (getToken s) with
  | false => (s, none, 0)
  | true =>
    match me with
    | .error _ => (clearAuth s, none, 1)
    | .ok user =>
      match jsTruthy user with
      | true => (setUserVal s user, some user, 1)
      | false => (s, none, 1)

/-- The runtime shape of the login response body. The declared
interface marks access_token as required, but the code guards it with
a falsiness check, so the model keeps it optional. -/
structure AuthResponse where
  access_token : Option String
  refresh_token : Option String
  token_type : Option String
  expires_in : Option Int
  user : Option JsValue
deriving Repr

/-- The tail of login when no truthy inline user came back: one
getCurrentUser attempt, then a throw when it produced null. -/
def loginFollowUp (s : Store) (me : Except String JsValue) :
    Store × Except String JsValue × Nat :=
  match getCurrentUser s me with
  | (s2, none, n) => (s2, .error "Login failed: user data missing", 1 + n)
  | (s2, some u, n) => (s2, .ok u, 1 + n)

/-- The token-storing prefix of login: setToken at once, then the
refresh token when it is truthy. -/
def storeTokens (s : Store) (r : AuthResponse) : Store :=
  let s1 : Store := { s with inventory_token := r.access_token }
  match jsTruthyStr r.refresh_token with
  | true => { s1 with refresh_token := r.refresh_token }
  | false => s1

/-- login: posts the credentials (outcome `resp`); on success requires
a truthy access token, stores it (and a truthy refresh token) at once,
then either uses a truthy inline user payload or falls back to one
getCurrentUser fetch (outcome `me`). -/
def login (s : Store) (resp : Except String AuthResponse)
    (me : Except String JsValue) : Store × Except String JsValue × Nat :=
  match resp with
  | .error e => (s, .error e, 1)
  | .ok r =>
    match jsTruthyStr r.access_token with
    | false => (s, .error "Login failed: access token missing", 1)
    | true =>
      match r.user with
      | some u =>
          match jsTruthy u with
          | true => (setUserVal (storeTokens s r) u, .ok u, 1)
          | false => loginFollowUp (storeTokens s r) me
      | none => loginFollowUp (storeTokens s r) me

/-- logout: the server notification may fail (outcome ignored after a
console log); the finally block always clears the session and
navigates to the login view, and logout itself never throws. -/
def logout (s : Store) (serverResp : Except String Unit) :
    Store × List String × Except String Unit :=
  match serverResp with
  | .ok _ => (clearAuth s, ["/login"], .ok ())
  | .error _ => (clearAuth s, ["/login"], .ok ())

/-- register: posts the payload and rethrows failures; the store is
not touched. -/
def register (s : Store) (resp : Except String Unit) :
    Store × Except String Unit :=
  (s, resp)

/-! ## ApiClient response interceptor (src/react/src/services/api.ts) -/

structure AxiosResponse where
  status : Int
  data : Option JsValue
deriving Repr

/-- An axios error: `response` is absent for network-level failures. -/
structure AxiosError where
  response : Option AxiosResponse
deriving Repr

/-- What the interceptor rejects the call with. -/
inductive Rejection where
  | payload (v : JsValue)
  | errorObject
deriving Repr

/-- The normalized rejected body: the server payload when present and
truthy, else the raw error object. -/
def normalizeRejection (e : AxiosError) : Rejection :=
  match e.response with
  | some r =>
    match r.data with
    | some d => if jsTruthy d then .payload d else .errorObject
    | none => .errorObject
  | none => .errorObject

/-- The response error interceptor: on status 401 it clears the
session and navigates to the login view; every error is rejected with
the normalized body. Returns the store left behind, the forced
navigations and the rejected body. -/
def interceptError (s : Store) (e : AxiosError) :
    Store × List String × Rejection :=
  if e.response.map (·.status) = some 401 then
    (clearAuth s, ["/login"], normalizeRejection e)
  else
    (s, [], normalizeRejection e)

/-! ## Reachable client states -/

/-- One store-touching client operation, together with the outcomes of
the network calls it performs. -/
inductive ClientOp where
  | loginOp (resp : Except String AuthResponse) (me : Except String JsValue)
  | currentUserOp (me : Except String JsValue)
  | registerOp (resp : Except String Unit)
  | logoutOp (resp : Except String Unit)
  | interceptOp (e : AxiosError)

/-- The store each operation leaves behind. -/
def applyOp (op : ClientOp) (s : Store) : Store :=
  match op with
  | .loginOp resp me => (login s resp me).1
  | .currentUserOp me => (getCurrentUser s me).1
  | .registerOp resp => (register s resp).1
  | .logoutOp resp => (logout s resp).1
  | .interceptOp e => (interceptError s e).1

/-- The stores reachable from the initial empty storage through the
modelled client operations. -/
inductive Reachable : Store → Prop where
  | init : Reachable emptyStore
  | step {s : Store} (op : ClientOp) : Reachable s → Reachable (applyOp op s)

/-- An operation invalidates the token held in `s` when a token is
present before and absent after. -/
def invalidatesToken (op : ClientOp) (s : Store) : Prop :=
  (getToken s).isSome = true ∧ getToken (applyOp op s) = none

/-- The getCurrentUser failure path: a cached-token call whose profile
fetch fails. -/
def isCurrentUserFailure : ClientOp → Prop
  | .currentUserOp (.error _) => True
  | _ => False

def isLogoutOp : ClientOp → Prop
  | .logoutOp _ => True
  | _ => False

/-- The claim that (explicit logout aside) the getCurrentUser failure
path is the sole client-side mechanism that removes a held token. -/
def soleStaleTokenInvalidation : Prop :=
  ∀ (op : ClientOp) (s : Store), invalidatesToken op s →
    isCurrentUserFailure op ∨ isLogoutOp op

/-! ## Item-level actions and the id-keyed set model (claim C1) -/

inductive ItemAction where
  | addItem (item : InventoryItem)
  | updateItem (item : InventoryItem)
  | deleteItem (id : String)
deriving DecidableEq, Repr

def toAction : ItemAction → InventoryAction
  | .addItem it => .ADD_ITEM it
  | .updateItem it => .UPDATE_ITEM it
  | .deleteItem i => .DELETE_ITEM i

/-- The items component of the three item-action reducer cases. -/
def stepItems (a : ItemAction) (l : List InventoryItem) :
    List InventoryItem :=
  match a with
  | .addItem it => it :: l
  | .updateItem it => l.map (fun x => if x.id == it.id then it else x)
  | .deleteItem i => l.filter (fun x => x.id != i)

def runItems (acts : List ItemAction) (l : List InventoryItem) :
    List InventoryItem :=
  acts.foldl (fun l a => stepItems a l) l

def itemIds (l : List InventoryItem) : List String := l.map (·.id)

/-- The id-keyed view of an items list: the first item carrying the
given id. -/
def lookupById (l : List InventoryItem) (k : String) :
    Option InventoryItem :=
  l.find? (fun x => x.id == k)

/-- Modelled from the spec words: the mathematically expected
evolution of the id-keyed set, viewed as a partial map from ids to
items. ADD inserts the binding, UPDATE replaces it when the id is
bound (no-op otherwise), DELETE removes it. -/
def specStep (a : ItemAction) (m : String → Option InventoryItem) :
    String → Option InventoryItem :=
  match a with
  | .addItem it => fun k => if k = it.id then some it else m k
  | .updateItem it => fun k => if k = it.id then (m k).map (fun _ => it) else m k
  | .deleteItem i => fun k => if k = i then none else m k

def specRun (acts : List ItemAction) (m : String → Option InventoryItem) :
    String → Option InventoryItem :=
  acts.foldl (fun m a => specStep a m) m

/-- The freshness check an action must pass against the current
items: an added id must not be present yet. -/
def addFreshCheck (l : List InventoryItem) : ItemAction → Bool
  | .addItem it => !(itemIds l).contains it.id
  | _ => true

/-- Along the run, every added id is fresh for the items present at
the moment of its insertion. -/
def validSeq : List InventoryItem → List ItemAction → Bool
  | _, [] => true
  | l, a :: rest => addFreshCheck l a && validSeq (stepItems a l) rest

/-- A sample item (the seeded laptop row), used by concrete witnesses. -/
def sampleItem : InventoryItem where
  id := "item-1"
  name := "Laptop Dell XPS 13"
  category_id := "cat-1"
  category := none
  current_stock := 15
  min_stock := 5
  max_stock := some 50
  buy_price := 15000000
  sell_price := 18000000
  unit := "pcs"
  sku := "ELEC-001"
  description := none
  warehouse_id := some "wh-1"
  warehouse := none
  created_by := "admin"
  created_at := "2024-01-01"
  updated_at := "2024-01-01"
  is_active := true

/-- The six state fields the item actions must not touch (claim C10). -/
def frameUntouched (s t : InventoryState) : Prop :=
  t.categories = s.categories ∧ t.warehouses = s.warehouses
  ∧ t.lowStockItems = s.lowStockItems ∧ t.inventoryValue = s.inventoryValue
  ∧ t.filters = s.filters ∧ t.pagination = s.pagination

/-- A SET_FILTERS payload carrying only `category_id := "1"`. -/
def patchCategory1 : FiltersPatch :=
  ⟨some (some "1"), none, none, none, none, none⟩

/-- A SET_FILTERS payload carrying only `search := "x"`. -/
def patchSearchX : FiltersPatch :=
  ⟨none, none, none, some (some "x"), none, none⟩

/-- A login response with a truthy access token and no inline user,
used to exercise the follow-up fetch. -/
def loginEmptyBodyResp : AuthResponse :=
  ⟨some "tok-1", none, some "bearer", some 3600, none⟩

/-- A login response with a truthy access token and a truthy inline
user payload. -/
def loginOkResp : AuthResponse :=
  ⟨some "tok-7", none, some "bearer", some 3600,
   some (.obj [("id", .str "u7")])⟩

/-! ## Helper lemmas for the reducer -/

theorem reducer_toAction_items (s : InventoryState) (a : ItemAction) :
    (inventoryReducer s (toAction a)).items = stepItems a s.items := by
  cases a <;> rfl

theorem runReducer_items (acts : List ItemAction) (s : InventoryState) :
    (runReducer (acts.map toAction) s).items = runItems acts s.items := by
  induction acts generalizing s with
  | nil => rfl
  | cons a rest ih =>
    show (runReducer (rest.map toAction) (inventoryReducer s (toAction a))).items
        = runItems rest (stepItems a s.items)
    rw [ih, reducer_toAction_items]

theorem lookup_cons (x : InventoryItem) (xs : List InventoryItem) (k : String) :
    lookupById (x :: xs) k = if x.id = k then some x else lookupById xs k := by
  unfold lookupById
  by_cases h : x.id = k
  · rw [List.find?_cons_of_pos _ (by simpa using h), if_pos h]
  · rw [List.find?_cons_of_neg _ (by simpa using h), if_neg h]

theorem lookup_add (it : InventoryItem) (l : List InventoryItem) (k : String) :
    lookupById (it :: l) k = if k = it.id then some it else lookupById l k := by
  rw [lookup_cons]
  by_cases h : k = it.id
  · rw [if_pos h.symm, if_pos h]
  · rw [if_neg (fun e => h e.symm), if_neg h]

theorem lookup_update (it : InventoryItem) (l : List InventoryItem) (k : String) :
    lookupById (l.map (fun x => if x.id == it.id then it else x)) k =
      if k = it.id then (lookupById l k).map (fun _ => it)
      else lookupById l k := by
  induction l with
  | nil => by_cases h : k = it.id <;> simp [lookupById, h]
  | cons x xs ih =>
    rw [List.map_cons]
    by_cases hx : x.id = it.id
    · rw [show (if x.id == it.id then it else x) = it by simp [hx]]
      rw [lookup_cons, lookup_cons]
      by_cases hk : k = it.id
      · rw [if_pos hk.symm, if_pos hk, if_pos (hx.trans hk.symm)]
        rfl
      · rw [if_neg (fun e => hk e.symm), ih, if_neg hk, if_neg hk,
          if_neg (show ¬ x.id = k by rw [hx]; exact fun e => hk e.symm)]
    · rw [show (if x.id == it.id then it else x) = x by simp [hx]]
      rw [lookup_cons, lookup_cons]
      by_cases hxk : x.id = k
      · have hk : ¬ k = it.id := fun e => hx (hxk.trans e)
        rw [if_pos hxk, if_neg hk, if_pos hxk]
      · rw [if_neg hxk, if_neg hxk, ih]

theorem lookup_delete (i : String) (l : List InventoryItem) (k : String) :
    lookupById (l.filter (fun x => x.id != i)) k =
      if k = i then none else lookupById l k := by
  induction l with
  | nil => by_cases h : k = i <;> simp [lookupById, h]
  | cons x xs ih =>
    by_cases hx : x.id = i
    · rw [List.filter_cons_of_neg (by simp [hx]), ih]
      by_cases hk : k = i
      · rw [if_pos hk, if_pos hk]
      · rw [if_neg hk, if_neg hk, lookup_cons,
          if_neg (show ¬ x.id = k by rw [hx]; exact fun e => hk e.symm)]
    · rw [List.filter_cons_of_pos (by simpa using hx), lookup_cons]
      by_cases hxk : x.id = k
      · have hk : ¬ k = i := fun e => hx (hxk.trans e)
        rw [if_pos hxk, if_neg hk, lookup_cons, if_pos hxk]
      · rw [if_neg hxk, ih]
        by_cases hk : k = i
        · rw [if_pos hk, if_pos hk]
        · rw [if_neg hk, if_neg hk, lookup_cons, if_neg hxk]

theorem lookup_step (a : ItemAction) (l : List InventoryItem) (k : String) :
    lookupById (stepItems a l) k = specStep a (lookupById l) k := by
  cases a with
  | addItem it => exact lookup_add it l k
  | updateItem it => exact lookup_update it l k
  | deleteItem i => exact lookup_delete i l k

theorem lookup_stepItems_eq (a : ItemAction) (l : List InventoryItem) :
    lookupById (stepItems a l) = specStep a (lookupById l) :=
  funext (lookup_step a l)

theorem itemIds_update (it : InventoryItem) (l : List InventoryItem) :
    itemIds (l.map (fun x => if x.id == it.id then it else x)) = itemIds l := by
  induction l with
  | nil => rfl
  | cons x xs ih =>
    unfold itemIds at ih ⊢
    rw [List.map_cons, List.map_cons, List.map_cons]
    refine congrArg₂ _ ?_ ih
    by_cases hx : x.id = it.id
    · simp [hx]
    · simp [hx]

theorem nodup_step (a : ItemAction) (l : List InventoryItem)
    (hn : (itemIds l).Nodup) (hf : addFreshCheck l a = true) :
    (itemIds (stepItems a l)).Nodup := by
  cases a with
  | addItem it =>
    show (itemIds (it :: l)).Nodup
    unfold itemIds
    rw [List.map_cons]
    refine List.nodup_cons.mpr ⟨?_, hn⟩
    simp only [addFreshCheck, Bool.not_eq_eq_eq_not, Bool.not_true] at hf
    simpa [itemIds] using hf
  | updateItem it =>
    show (itemIds (l.map (fun x => if x.id == it.id then it else x))).Nodup
    rw [itemIds_update]
    exact hn
  | deleteItem i =>
    show (itemIds (l.filter (fun x => x.id != i))).Nodup
    have hsub : ((l.filter (fun x => x.id != i)).map (·.id)).Sublist
        (l.map (·.id)) :=
      (List.filter_sublist l).map (·.id)
    exact hn.sublist hsub

theorem run_semantics (acts : List ItemAction) (l : List InventoryItem)
    (hn : (itemIds l).Nodup) (hv : validSeq l acts = true) :
    (∀ k, lookupById (runItems acts l) k = specRun acts (lookupById l) k)
    ∧ (itemIds (runItems acts l)).Nodup := by
  induction acts generalizing l with
  | nil => exact ⟨fun _ => rfl, hn⟩
  | cons a rest ih =>
    simp only [validSeq, Bool.and_eq_true] at hv
    have hn' := nodup_step a l hn hv.1
    obtain ⟨hl, hnod⟩ := ih (stepItems a l) hn' hv.2
    refine ⟨fun k => ?_, hnod⟩
    show lookupById (runItems rest (stepItems a l)) k
        = specRun rest (specStep a (lookupById l)) k
    rw [hl k, lookup_stepItems_eq]

/-! ## Helper lemmas for the auth operations -/

theorem storeTokens_inventory_token (s : Store) (r : AuthResponse) :
    (storeTokens s r).inventory_token = r.access_token := by
  unfold storeTokens
  cases h : jsTruthyStr r.refresh_token <;> rfl

theorem storeTokens_inventory_user (s : Store) (r : AuthResponse) :
    (storeTokens s r).inventory_user = s.inventory_user := by
  unfold storeTokens
  cases h : jsTruthyStr r.refresh_token <;> rfl

theorem jsTruthyStr_true_ne_empty (o : Option String)
    (h : jsTruthyStr o = true) : o ≠ some "" := by
  intro e
  rw [e] at h
  simp [jsTruthyStr] at h

theorem loginFollowUp_store (s : Store) (me : Except String JsValue) :
    (loginFollowUp s me).1 = (getCurrentUser s me).1 := by
  unfold loginFollowUp
  rcases h : getCurrentUser s me with ⟨s2, u, n⟩
  cases u <;> rfl

theorem getCurrentUser_token_cases (s : Store) (me : Except String JsValue) :
    (getCurrentUser s me).1.inventory_token = s.inventory_token
    ∨ (getCurrentUser s me).1.inventory_token = none := by
  unfold getCurrentUser
  cases hT : jsTruthyStr (getToken s) with
  | false => exact Or.inl rfl
  | true =>
    cases me with
    | error e => exact Or.inr rfl
    | ok u =>
      cases hU : jsTruthy u with
      | true =>
        simp only [hU]
        left
        trivial
      | false =>
        simp only [hU]
        left
        trivial

theorem applyOp_token_wf (op : ClientOp) (s : Store)
    (h : s.inventory_token ≠ some "") :
    (applyOp op s).inventory_token ≠ some "" := by
  cases op with
  | loginOp resp me =>
    show (login s resp me).1.inventory_token ≠ some ""
    cases resp with
    | error e => exact h
    | ok r =>
      cases hT : jsTruthyStr r.access_token with
      | false =>
        unfold login
        simp only [hT]
        exact h
      | true =>
        have hTok : r.access_token ≠ some "" := jsTruthyStr_true_ne_empty _ hT
        unfold login
        simp only [hT]
        cases hu : r.user with
        | none =>
          show (loginFollowUp (storeTokens s r) me).1.inventory_token ≠ some ""
          rw [loginFollowUp_store]
          rcases getCurrentUser_token_cases (storeTokens s r) me with hc | hc
          · rw [hc, storeTokens_inventory_token]
            exact hTok
          · rw [hc]
            exact fun e2 => Option.noConfusion e2
        | some u =>
          cases hU : jsTruthy u with
          | true =>
            simp only [hU]
            show (storeTokens s r).inventory_token ≠ some ""
            rw [storeTokens_inventory_token]
            exact hTok
          | false =>
            simp only [hU]
            show (loginFollowUp (storeTokens s r) me).1.inventory_token ≠ some ""
            rw [loginFollowUp_store]
            rcases getCurrentUser_token_cases (storeTokens s r) me with hc | hc
            · rw [hc, storeTokens_inventory_token]
              exact hTok
            · rw [hc]
              exact fun e2 => Option.noConfusion e2
  | currentUserOp me =>
    show (getCurrentUser s me).1.inventory_token ≠ some ""
    rcases getCurrentUser_token_cases s me with hc | hc
    · rw [hc]
      exact h
    · rw [hc]
      exact fun e2 => Option.noConfusion e2
  | registerOp resp => exact h
  | logoutOp resp =>
    show (logout s resp).1.inventory_token ≠ some ""
    cases resp <;> exact fun e2 => Option.noConfusion e2
  | interceptOp e =>
    show (interceptError s e).1.inventory_token ≠ some ""
    unfold interceptError
    split
    · exact fun e2 => Option.noConfusion e2
    · exact h

theorem reachable_token_wf :
    ∀ s : Store, Reachable s → s.inventory_token ≠ some "" := by
  intro s h
  induction h with
  | init => exact fun e => Option.noConfusion e
  | step op hr ih => exact applyOp_token_wf op _ ih

/-! ## Claim theorems -/

/-- Claim C1: over any sequence of ADD_ITEM, UPDATE_ITEM and
DELETE_ITEM actions, provided the initial ids are pairwise distinct
and every added id is fresh, the items list keyed by id evolves
exactly as the spec-side id-keyed set (insert, replace-by-id,
remove-by-id), and distinctness of ids is preserved; moreover a
DELETE_ITEM or UPDATE_ITEM whose id matches no item leaves the items
list unchanged. -/
theorem reducer_item_set_semantics :
    (∀ (s : InventoryState) (acts : List ItemAction),
        (itemIds s.items).Nodup → validSeq s.items acts = true →
          (∀ k, lookupById (runReducer (acts.map toAction) s).items k
              = specRun acts (lookupById s.items) k)
          ∧ (itemIds (runReducer (acts.map toAction) s).items).Nodup)
    ∧ (∀ (s : InventoryState) (i : String), lookupById s.items i = none →
        (inventoryReducer s (.DELETE_ITEM i)).items = s.items)
    ∧ (∀ (s : InventoryState) (it : InventoryItem),
        lookupById s.items it.id = none →
        (inventoryReducer s (.UPDATE_ITEM it)).items = s.items) := by
  refine ⟨?_, ?_, ?_⟩
  · intro s acts hn hv
    have h := run_semantics acts s.items hn hv
    rw [runReducer_items]
    exact h
  · intro s i h
    show s.items.filter (fun x => x.id != i) = s.items
    refine List.filter_eq_self.mpr ?_
    intro x hx
    simpa using List.find?_eq_none.mp h x hx
  · intro s it h
    show s.items.map (fun x => if x.id == it.id then it else x) = s.items
    have hid : ∀ x ∈ s.items, (if x.id == it.id then it else x) = x := by
      intro x hx
      have hne := List.find?_eq_none.mp h x hx
      simp only [beq_iff_eq] at hne ⊢
      simp [hne]
    calc s.items.map (fun x => if x.id == it.id then it else x)
        = s.items.map (fun x => x) := List.map_congr_left hid
      _ = s.items := List.map_id' s.items

/-- Witness for C1 at a concrete run and a concrete missing delete. -/
theorem reducer_item_set_semantics_witness :
    (lookupById (runReducer ([ItemAction.addItem sampleItem].map toAction)
        initialState).items sampleItem.id = some sampleItem)
    ∧ (inventoryReducer initialState (.DELETE_ITEM "missing")).items
        = initialState.items := by
  constructor
  · have h := (reducer_item_set_semantics.1 initialState
      [ItemAction.addItem sampleItem] (List.nodup_nil) (by rfl)).1 sampleItem.id
    rw [h]
    rfl
  · exact reducer_item_set_semantics.2.1 initialState "missing" (by rfl)

/-- Claim C8: SET_FILTERS and SET_PAGINATION shallow-merge their
payload into the existing substate, preserving every field the
payload does not name; dispatching the category-only payload and then
the search-only payload accumulates both; and SET_FILTERS never
touches the pagination (so never pagination.page). -/
theorem set_filters_shallow_merge :
    (∀ (s : InventoryState) (p : FiltersPatch),
        (inventoryReducer s (.SET_FILTERS p)).filters = mergeFilters s.filters p
        ∧ (inventoryReducer s (.SET_FILTERS p)).pagination = s.pagination)
    ∧ (∀ (s : InventoryState) (p : FiltersPatch),
        (p.category_id = none →
          (inventoryReducer s (.SET_FILTERS p)).filters.category_id
            = s.filters.category_id)
        ∧ (p.min_stock = none →
          (inventoryReducer s (.SET_FILTERS p)).filters.min_stock
            = s.filters.min_stock)
        ∧ (p.max_stock = none →
          (inventoryReducer s (.SET_FILTERS p)).filters.max_stock
            = s.filters.max_stock)
        ∧ (p.search = none →
          (inventoryReducer s (.SET_FILTERS p)).filters.search
            = s.filters.search)
        ∧ (p.warehouse_id = none →
          (inventoryReducer s (.SET_FILTERS p)).filters.warehouse_id
            = s.filters.warehouse_id)
        ∧ (p.is_active = none →
          (inventoryReducer s (.SET_FILTERS p)).filters.is_active
            = s.filters.is_active))
    ∧ (∀ (s : InventoryState) (p : PaginationPatch),
        (p.page = none →
          (inventoryReducer s (.SET_PAGINATION p)).pagination.page
            = s.pagination.page)
        ∧ (p.limit = none →
          (inventoryReducer s (.SET_PAGINATION p)).pagination.limit
            = s.pagination.limit)
        ∧ (p.total = none →
          (inventoryReducer s (.SET_PAGINATION p)).pagination.total
            = s.pagination.total)
        ∧ (p.totalPages = none →
          (inventoryReducer s (.SET_PAGINATION p)).pagination.totalPages
            = s.pagination.totalPages))
    ∧ (runReducer [.SET_FILTERS patchCategory1, .SET_FILTERS patchSearchX]
        initialState).filters
        = { category_id := some "1", min_stock := some 0, max_stock := none,
            search := some "x", warehouse_id := none, is_active := none } := by
  refine ⟨fun s p => ⟨rfl, rfl⟩, fun s p => ?_, fun s p => ?_, rfl⟩
  · refine ⟨?_, ?_, ?_, ?_, ?_, ?_⟩ <;>
      (intro h; simp [inventoryReducer, mergeFilters, h])
  · refine ⟨?_, ?_, ?_, ?_⟩ <;>
      (intro h; simp [inventoryReducer, mergePagination, h])

/-- Witness for C8: the preservation conjuncts applied to a payload
naming no field at all. -/
theorem set_filters_shallow_merge_witness :
    (inventoryReducer initialState
      (.SET_FILTERS ⟨none, none, none, none, none, none⟩)).filters.category_id
      = some ""
    ∧ (inventoryReducer initialState
      (.SET_PAGINATION ⟨none, none, none, none⟩)).pagination.page = 1 := by
  constructor
  · exact ((set_filters_shallow_merge.2.1 initialState
      ⟨none, none, none, none, none, none⟩).1 rfl).trans rfl
  · exact ((set_filters_shallow_merge.2.2.1 initialState
      ⟨none, none, none, none⟩).1 rfl).trans rfl

/-- Claim C10: ADD_ITEM, UPDATE_ITEM and DELETE_ITEM all clear the
loading flag and the error, and leave the categories, warehouses,
lowStockItems, inventoryValue, filters and pagination fields
unchanged. -/
theorem item_actions_frame_effects :
    ∀ (s : InventoryState) (it : InventoryItem) (i : String),
      ((inventoryReducer s (.ADD_ITEM it)).isLoading = false
        ∧ (inventoryReducer s (.ADD_ITEM it)).error = none
        ∧ frameUntouched s (inventoryReducer s (.ADD_ITEM it)))
      ∧ ((inventoryReducer s (.UPDATE_ITEM it)).isLoading = false
        ∧ (inventoryReducer s (.UPDATE_ITEM it)).error = none
        ∧ frameUntouched s (inventoryReducer s (.UPDATE_ITEM it)))
      ∧ ((inventoryReducer s (.DELETE_ITEM i)).isLoading = false
        ∧ (inventoryReducer s (.DELETE_ITEM i)).error = none
        ∧ frameUntouched s (inventoryReducer s (.DELETE_ITEM i))) := by
  intro s it i
  exact ⟨⟨rfl, rfl, rfl, rfl, rfl, rfl, rfl, rfl⟩,
         ⟨rfl, rfl, rfl, rfl, rfl, rfl, rfl, rfl⟩,
         ⟨rfl, rfl, rfl, rfl, rfl, rfl, rfl, rfl⟩⟩

/-- Claim C2: a 401 error makes the interceptor clear the session (so
that the token, the refresh token and the cached user are all absent),
force exactly one navigation to the login view, and reject with the
normalized error body; any other error leaves the session untouched
and forces no navigation, and a present truthy server payload is
propagated to the caller unchanged. -/
theorem interceptor_session_discipline :
    ∀ (s : Store) (e : AxiosError),
      (e.response.map (·.status) = some 401 →
        (interceptError s e).1.inventory_token = none
        ∧ (interceptError s e).1.refresh_token = none
        ∧ (interceptError s e).1.inventory_user = none
        ∧ (interceptError s e).2.1 = ["/login"]
        ∧ (interceptError s e).2.2 = normalizeRejection e)
      ∧ (e.response.map (·.status) ≠ some 401 →
        (interceptError s e).1 = s
        ∧ (interceptError s e).2.1 = []
        ∧ (interceptError s e).2.2 = normalizeRejection e)
      ∧ (∀ (st : Int) (d : JsValue), e.response = some ⟨st, some d⟩ →
          jsTruthy d = true →
          (interceptError s e).2.2 = Rejection.payload d) := by
  intro s e
  refine ⟨?_, ?_, ?_⟩
  · intro h
    unfold interceptError
    rw [if_pos h]
    exact ⟨rfl, rfl, rfl, rfl, rfl⟩
  · intro h
    unfold interceptError
    rw [if_neg h]
    exact ⟨rfl, rfl, rfl⟩
  · intro st d hresp htr
    have hrej : (interceptError s e).2.2 = normalizeRejection e := by
      unfold interceptError
      split
      · rfl
      · rfl
    rw [hrej]
    unfold normalizeRejection
    rw [hresp]
    show (if jsTruthy d = true then Rejection.payload d
          else Rejection.errorObject) = Rejection.payload d
    rw [if_pos htr]

/-- Witness for C2: a concrete 401 clears the token; a concrete 500
propagates the payload and keeps the session. -/
theorem interceptor_session_discipline_witness :
    ((interceptError ⟨some "tok", some "ref", some "usr"⟩
        ⟨some ⟨401, some (.str "unauthorized")⟩⟩).1.inventory_token = none)
    ∧ ((interceptError ⟨some "tok", some "ref", some "usr"⟩
        ⟨some ⟨500, some (.str "boom")⟩⟩).1
          = ⟨some "tok", some "ref", some "usr"⟩)
    ∧ ((interceptError ⟨some "tok", some "ref", some "usr"⟩
        ⟨some ⟨500, some (.str "boom")⟩⟩).2.2
          = Rejection.payload (.str "boom")) := by
  refine ⟨?_, ?_, ?_⟩
  · exact ((interceptor_session_discipline ⟨some "tok", some "ref", some "usr"⟩
      ⟨some ⟨401, some (.str "unauthorized")⟩⟩).1 rfl).1
  · exact ((interceptor_session_discipline ⟨some "tok", some "ref", some "usr"⟩
      ⟨some ⟨500, some (.str "boom")⟩⟩).2.1 (by decide)).1
  · exact (interceptor_session_discipline ⟨some "tok", some "ref", some "usr"⟩
      ⟨some ⟨500, some (.str "boom")⟩⟩).2.2 500 (.str "boom") rfl rfl

/-- Counterexample to claim C3 as stated: the 401 interceptor is a
second client-side mechanism that removes a held token, so the
getCurrentUser failure path is not the sole one (even granting
explicit logout as an exception). -/
theorem sole_invalidation_counterexample : ¬ soleStaleTokenInvalidation := by
  intro h
  rcases h (.interceptOp ⟨some ⟨401, none⟩⟩) ⟨some "tok", none, none⟩
      ⟨rfl, rfl⟩ with hc | hc
  · exact hc
  · exact hc

/-- Claim C3 (amended): getCurrentUser with a token cached and a
failing profile fetch clears the entire session (token, refresh
token and cached user all removed) and returns null; this failure
path is one of the client-side mechanisms invalidating a stale or
expired token, alongside the 401 interceptor of the HTTP client,
which also clears the whole session. -/
theorem getCurrentUser_failure_clears :
    (∀ (s : Store) (err : String), jsTruthyStr (getToken s) = true →
        getCurrentUser s (.error err) = (emptyStore, none, 1))
    ∧ (∀ (s : Store) (e : AxiosError), e.response.map (·.status) = some 401 →
        (interceptError s e).1 = emptyStore) := by
  constructor
  · intro s err h
    unfold getCurrentUser
    rw [h]
    rfl
  · intro s e h
    unfold interceptError
    rw [if_pos h]
    rfl

/-- Witness for amended C3 at a fully populated session. -/
theorem getCurrentUser_failure_clears_witness :
    getCurrentUser ⟨some "tok", some "ref", some "usr"⟩
        (.error "Request failed with status code 500")
      = (emptyStore, none, 1) :=
  getCurrentUser_failure_clears.1 ⟨some "tok", some "ref", some "usr"⟩
    "Request failed with status code 500" rfl

/-- Claim C5: getCurrentUser called with no cached token returns null
immediately, performs no network call, and leaves the stored session
unchanged. -/
theorem getCurrentUser_without_token :
    ∀ (s : Store) (me : Except String JsValue), getToken s = none →
      getCurrentUser s me = (s, none, 0) := by
  intro s me h
  unfold getCurrentUser
  rw [h]
  rfl

/-- Witness for C5 at a store holding no token. -/
theorem getCurrentUser_without_token_witness :
    getCurrentUser ⟨none, some "ref", some "usr"⟩ (.ok .null)
      = (⟨none, some "ref", some "usr"⟩, none, 0) :=
  getCurrentUser_without_token ⟨none, some "ref", some "usr"⟩ (.ok .null) rfl

/-- Counterexample to claim C6 as stated: a malformed non-JSON cached
blob makes getUser raise (JSON.parse throws), so getUser does not
deserialize every blob without error. -/
theorem getUser_raises_counterexample :
    exceptOk (getUser ⟨none, none, some "\x7b"⟩) = false
    ∧ ¬ (∀ s : Store, exceptOk (getUser s) = true) := by
  constructor
  · rfl
  · intro h
    have h1 := h ⟨none, none, some "\x7b"⟩
    have h2 : exceptOk (getUser ⟨none, none, some "\x7b"⟩) = false := rfl
    rw [h1] at h2
    exact Bool.noConfusion h2

/-- Claim C6 (amended): getUser returns a null user without error when
the cached blob is absent or empty, and deserializes any valid-JSON
blob permissively (no schema validation; the blob "null" yields a
null user); but a malformed non-JSON blob makes JSON.parse throw, and
getUser propagates that exception instead of returning null. -/
theorem getUser_deserialization :
    (∀ s : Store, s.inventory_user = none → getUser s = .ok .null)
    ∧ (∀ s : Store, s.inventory_user = some "" → getUser s = .ok .null)
    ∧ (∀ (s : Store) (blob : String) (v : JsValue),
        s.inventory_user = some blob → blob ≠ "" →
        jsonParse blob = .ok v → getUser s = .ok v)
    ∧ (∀ (s : Store) (blob : String) (err : String),
        s.inventory_user = some blob → blob ≠ "" →
        jsonParse blob = .error err → getUser s = .error err)
    ∧ getUser ⟨none, none, some "null"⟩ = .ok .null := by
  refine ⟨?_, ?_, ?_, ?_, rfl⟩
  · intro s h
    unfold getUser
    rw [h]
  · intro s h
    unfold getUser
    rw [h]
    rfl
  · intro s blob v h hne hp
    unfold getUser
    rw [h]
    show (if blob = "" then Except.ok JsValue.null else jsonParse blob)
        = Except.ok v
    rw [if_neg hne]
    exact hp
  · intro s blob err h hne hp
    unfold getUser
    rw [h]
    show (if blob = "" then Except.ok JsValue.null else jsonParse blob)
        = Except.error err
    rw [if_neg hne]
    exact hp

/-- Witness for amended C6 at a concrete malformed blob. -/
theorem getUser_deserialization_witness :
    getUser ⟨none, none, some "not json"⟩
      = Except.error "Unexpected token in JSON" :=
  getUser_deserialization.2.2.2.1 ⟨none, none, some "not json"⟩
    "not json" "Unexpected token in JSON" rfl (by decide) rfl

/-- Claim C9: logout swallows a failing server notification and on
every path clears the local session completely, navigates once to the
login view, and itself resolves without error. -/
theorem logout_clears_and_redirects :
    ∀ (s : Store) (r : Except String Unit),
      logout s r = (emptyStore, ["/login"], Except.ok ()) := by
  intro s r
  cases r <;> rfl

/-- Counterexample to claim C4 as stated: when the follow-up fetch
succeeds with an empty (falsy) body, login throws, yet the session is
left with the freshly stored token present and no cached user. -/
theorem login_token_without_user_counterexample :
    (login emptyStore (.ok loginEmptyBodyResp) (.ok .null)).1.inventory_token
      = some "tok-1"
    ∧ (login emptyStore (.ok loginEmptyBodyResp) (.ok .null)).1.inventory_user
      = none
    ∧ exceptOk (login emptyStore (.ok loginEmptyBodyResp) (.ok .null)).2.1
      = false :=
  ⟨rfl, rfl, rfl⟩

/-- Claim C4 (amended): login stores the access token (and a truthy
refresh token) immediately on a successful response and then either
uses a truthy inline user payload or performs one follow-up
current-user fetch; it throws, leaving the session untouched, when
the response carries no truthy access token, and throws when the
follow-up yields no user; when the follow-up fetch fails the session
is fully cleared, and in the one remaining path, the follow-up
succeeding with an empty (falsy) body, login throws with the stored
token in place and the cached user unchanged. -/
theorem login_session_discipline :
    (∀ (s : Store) (e : String) (me : Except String JsValue),
        login s (.error e) me = (s, .error e, 1))
    ∧ (∀ (s : Store) (r : AuthResponse) (me : Except String JsValue),
        jsTruthyStr r.access_token = false →
        login s (.ok r) me
          = (s, .error "Login failed: access token missing", 1))
    ∧ (∀ (s : Store) (r : AuthResponse) (u : JsValue)
          (me : Except String JsValue),
        jsTruthyStr r.access_token = true → r.user = some u →
        jsTruthy u = true →
        login s (.ok r) me = (setUserVal (storeTokens s r) u, .ok u, 1)
        ∧ (setUserVal (storeTokens s r) u).inventory_token = r.access_token
        ∧ (setUserVal (storeTokens s r) u).inventory_user
            = some (stringify u))
    ∧ (∀ (s : Store) (r : AuthResponse) (err : String),
        jsTruthyStr r.access_token = true →
        (r.user = none ∨ ∃ u, r.user = some u ∧ jsTruthy u = false) →
        login s (.ok r) (.error err)
          = (emptyStore, .error "Login failed: user data missing", 2))
    ∧ (∀ (s : Store) (r : AuthResponse) (v : JsValue),
        jsTruthyStr r.access_token = true →
        (r.user = none ∨ ∃ u, r.user = some u ∧ jsTruthy u = false) →
        jsTruthy v = true →
        login s (.ok r) (.ok v)
          = (setUserVal (storeTokens s r) v, .ok v, 2))
    ∧ (∀ (s : Store) (r : AuthResponse) (v : JsValue),
        jsTruthyStr r.access_token = true →
        (r.user = none ∨ ∃ u, r.user = some u ∧ jsTruthy u = false) →
        jsTruthy v = false →
        (login s (.ok r) (.ok v)).1 = storeTokens s r
        ∧ (storeTokens s r).inventory_token = r.access_token
        ∧ (storeTokens s r).inventory_user = s.inventory_user
        ∧ exceptOk (login s (.ok r) (.ok v)).2.1 = false) := by
  have hTokTrue : ∀ (s : Store) (r : AuthResponse),
      jsTruthyStr (getToken (storeTokens s r)) = jsTruthyStr r.access_token := by
    intro s r
    show jsTruthyStr (storeTokens s r).inventory_token = _
    rw [storeTokens_inventory_token]
  refine ⟨fun s e me => rfl, ?_, ?_, ?_, ?_, ?_⟩
  · intro s r me hT
    unfold login
    simp only [hT]
  · intro s r u me hT hu hU
    unfold login
    simp only [hT, hu, hU]
    exact ⟨by trivial, storeTokens_inventory_token s r, by trivial⟩
  · intro s r err hT hu
    unfold login
    simp only [hT]
    have hfu : loginFollowUp (storeTokens s r) (.error err)
        = (emptyStore, .error "Login failed: user data missing", 2) := by
      unfold loginFollowUp getCurrentUser
      rw [hTokTrue s r, hT]
      rfl
    rcases hu with hn | ⟨u, huEq, huF⟩
    · simp only [hn]
      exact hfu
    · simp only [huEq, huF]
      exact hfu
  · intro s r v hT hu hV
    unfold login
    simp only [hT]
    have hfu : loginFollowUp (storeTokens s r) (.ok v)
        = (setUserVal (storeTokens s r) v, .ok v, 2) := by
      unfold loginFollowUp getCurrentUser
      rw [hTokTrue s r, hT]
      simp only [hV]
    rcases hu with hn | ⟨u, huEq, huF⟩
    · simp only [hn]
      exact hfu
    · simp only [huEq, huF]
      exact hfu
  · intro s r v hT hu hV
    unfold login
    simp only [hT]
    have hfu : loginFollowUp (storeTokens s r) (.ok v)
        = (storeTokens s r, .error "Login failed: user data missing", 2) := by
      unfold loginFollowUp getCurrentUser
      rw [hTokTrue s r, hT]
      simp only [hV]
    rcases hu with hn | ⟨u, huEq, huF⟩
    · simp only [hn, hfu]
      exact ⟨by trivial, storeTokens_inventory_token s r,
        storeTokens_inventory_user s r, by trivial⟩
    · simp only [huEq, huF, hfu]
      exact ⟨by trivial, storeTokens_inventory_token s r,
        storeTokens_inventory_user s r, by trivial⟩

/-- Witness for amended C4: a concrete login whose inline user is
used directly. -/
theorem login_session_discipline_witness :
    login emptyStore (.ok loginOkResp) (.ok .null)
      = (setUserVal (storeTokens emptyStore loginOkResp)
          (.obj [("id", .str "u7")]),
         .ok (.obj [("id", .str "u7")]), 1) :=
  (login_session_discipline.2.2.1 emptyStore loginOkResp
    (.obj [("id", .str "u7")]) (.ok .null) rfl rfl rfl).1

/-- Claim C7: at every client state reachable through the modelled
operations, isAuthenticated holds exactly when getToken returns a
token (a non-null value); no modelled operation ever stores the
empty-string token that would break the equivalence. -/
theorem isAuthenticated_iff_token :
    ∀ s : Store, Reachable s →
      (isAuthenticated s = true ↔ (getToken s).isSome = true) := by
  intro s hs
  have hwf := reachable_token_wf s hs
  unfold isAuthenticated
  cases h : getToken s with
  | none => simp [jsTruthyStr]
  | some t =>
    have ht : t ≠ "" := by
      intro e
      apply hwf
      show s.inventory_token = some ""
      rw [← e]
      exact h
    simp [jsTruthyStr, ht]

/-- Witness for C7 at the state a concrete successful login leaves
behind, which is both authenticated and holding a token. -/
theorem isAuthenticated_iff_token_witness :
    isAuthenticated
      (applyOp (.loginOp (.ok loginOkResp) (.ok .null)) emptyStore) = true :=
  (isAuthenticated_iff_token
    (applyOp (.loginOp (.ok loginOkResp) (.ok .null)) emptyStore)
    (Reachable.step _ Reachable.init)).mpr rfl

end Inventory
